import Mathlib

/-
  Verification of the sextant cloud-config-server cache component
  (src/cloud-config-server/cache/cache.go) against its specification.

  The Go file implements a self-refreshing in-memory cache of a remote
  HTTP resource with an on-disk fallback copy.  Below is a shallow
  embedding of its state and operations:

  * `httpGet`      — cache.go lines 92-109;
  * `load`         — cache.go lines 81-90 (bootstrap, may panic);
  * `New`          — cache.go lines 43-78 (construction; `none` = panic);
  * `refreshStep`  — one iteration of the background goroutine's loop
                     (cache.go lines 52-75), parametrised by the outcome
                     of the fetch, of the disk write, and by whether a
                     `Close` sender is waiting at the iteration boundary;
  * `Get`          — cache.go lines 111-118 (read + non-blocking trigger);
  * `Close`        — cache.go lines 120-122.

  Go byte slices are modelled as `Option (List Nat)` where `none` is the
  nil slice; Go errors as a `Bool` recording whether the error value is
  non-nil; the capacity-one `update` channel as a `Bool` pending flag;
  the fact that the goroutine closes both channels on exit as a single
  `channelsClosed` flag.
-/

namespace Sextant

/-- Bytes of a Go byte slice; `none` models Go's nil slice. -/
abbrev GoBytes := Option (List Nat)

/-- Outcome of the HTTP round trip as the Go code distinguishes it:
either `client.Get` returns a non-nil error (`err`), or a response
arrives carrying a `status` code, in which case the subsequent
`ioutil.ReadAll` of the body may itself fail (`readBody = none`). -/
inductive TransportResult where
  | err : TransportResult
  | ok (status : Nat) (readBody : Option (List Nat)) : TransportResult
  deriving DecidableEq, Repr

/-- Shallow embedding of `httpGet` (cache.go 92-109).  Returns the pair
`(body, errNonNil)` mirroring Go's `([]byte, error)`; the Bool records
whether the returned error value is non-nil.  The embedding keeps the
source's slip faithfully: when the transport succeeds but the status is
not 200, the Go code executes `return nil, err` with `err` still nil,
i.e. the result is `(none, false)` — no error is reported. -/
def httpGet : TransportResult → GoBytes × Bool
  | TransportResult.err => (none, true)
  | TransportResult.ok status readBody =>
      if status ≠ 200 then (none, false)
      else
        match readBody with
        | none => (none, true)
        | some b => (some b, false)

/-- Result of `load` (cache.go 81-90): the returned bytes, or the
`log.Panicf` call when neither source can be read. -/
inductive LoadResult where
  | ok (b : GoBytes) : LoadResult
  | panic : LoadResult
  deriving DecidableEq, Repr

/-- Shallow embedding of `load` (cache.go 81-90): call `httpGet`; if its
error is non-nil, read the fallback file (`file = none` models a read
error); if that also fails, `log.Panicf`. -/
def load (fetch : TransportResult) (file : Option (List Nat)) : LoadResult :=
  match httpGet fetch with
  | (b, false) => LoadResult.ok b
  | (_, true) =>
      match file with
      | some fb => LoadResult.ok (some fb)
      | none => LoadResult.panic

/-- The mutable state of a `Cache` value together with the state of its
two channels: `updatePending` is whether the capacity-one `update`
channel holds an element; `channelsClosed` is whether the background
goroutine has executed `close(c.update); close(c.close)` and exited. -/
structure CacheState where
  filename : String
  url : String
  content : GoBytes
  updatePending : Bool
  channelsClosed : Bool
  deriving DecidableEq, Repr

/-- Shallow embedding of `New` (cache.go 43-78) up to its return: the
content is bootstrapped synchronously by `load`, the buffered `update`
channel starts empty and the `close` channel open.  `none` models the
panic propagating out of `load`. -/
def New (url filename : String) (fetch : TransportResult)
    (file : Option (List Nat)) : Option CacheState :=
  match load fetch file with
  | LoadResult.panic => none
  | LoadResult.ok b =>
      some { filename := filename, url := url, content := b,
             updatePending := false, channelsClosed := false }

/-- Everything one iteration of the background loop produces: the new
state, the disk write it attempted (`some b` = `ioutil.WriteFile` was
called with bytes `b`; `none` = no write), whether a write failure was
logged, and whether the goroutine returned. -/
structure StepOutcome where
  state : CacheState
  fileWrite : Option GoBytes
  loggedWriteFailure : Bool
  exited : Bool
  deriving DecidableEq, Repr

/-- Shallow embedding of one iteration of the background goroutine's
loop (cache.go 52-75).  `wakeFromUpdate` records which `select` case
woke the loop (receiving from `update` drains the pending request);
`fetch` is the outcome of this iteration's `httpGet`; `diskWriteOk` is
whether `ioutil.WriteFile` succeeds if called; `closeRequested` is
whether a `Close` sender is waiting on `c.close` when the trailing
`select` runs — if so the goroutine receives it, closes both channels
and returns. -/
def refreshStep (s : CacheState) (wakeFromUpdate : Bool)
    (fetch : TransportResult) (diskWriteOk : Bool)
    (closeRequested : Bool) : StepOutcome :=
  let s0 : CacheState :=
    if wakeFromUpdate then { s with updatePending := false } else s
  let r := httpGet fetch
  let s1 : CacheState := if r.2 then s0 else { s0 with content := r.1 }
  let wrote : Option GoBytes := if r.2 then none else some r.1
  let logged : Bool := !r.2 && !diskWriteOk
  if closeRequested then
    { state := { s1 with channelsClosed := true }, fileWrite := wrote,
      loggedWriteFailure := logged, exited := true }
  else
    { state := s1, fileWrite := wrote,
      loggedWriteFailure := logged, exited := false }

/-- Result of a `Get` call: the returned bytes and the successor channel
state, or the run-time panic Go raises when the `select` chooses the
send on the closed `update` channel. -/
inductive GetResult where
  | ok (b : GoBytes) (next : CacheState) : GetResult
  | panic : GetResult
  deriving DecidableEq, Repr

/-- Shallow embedding of `Get` (cache.go 111-118): read `c.content`,
then `select { case c.update <- 1: default: }`.  On a closed channel the
send case is ready and proceeds by panicking; on a full channel the
`default` branch fires (no-op); otherwise the send deposits the request
into the capacity-one buffer. -/
def Get (s : CacheState) : GetResult :=
  let b := s.content
  if s.channelsClosed then GetResult.panic
  else if s.updatePending then GetResult.ok b s
  else GetResult.ok b { s with updatePending := true }

/-- Result of a `Close` call: the send on the unbuffered `close` channel
is received by the goroutine at an iteration boundary (`delivered`), or
panics because the goroutine has already closed the channel. -/
inductive CloseResult where
  | delivered : CloseResult
  | panic : CloseResult
  deriving DecidableEq, Repr

/-- Shallow embedding of `Close` (cache.go 120-122): `c.close <- 1`. -/
def Close (s : CacheState) : CloseResult :=
  if s.channelsClosed then CloseResult.panic else CloseResult.delivered

/-- The channel state reached after `n` consecutive `Get` calls with no
intervening background iteration. -/
def getBurst : Nat → CacheState → CacheState
  | 0, s => s
  | Nat.succ n, s =>
      match Get s with
      | GetResult.ok _ s2 => getBurst n s2
      | GetResult.panic => s

/-- How many of `n` consecutive `Get` calls actually deposit a refresh
request into the `update` channel (pending flag flips false → true). -/
def enqueueCount : Nat → CacheState → Nat
  | 0, _ => 0
  | Nat.succ n, s =>
      match Get s with
      | GetResult.ok _ s2 =>
          (if !s.updatePending && s2.updatePending then 1 else 0)
            + enqueueCount n s2
      | GetResult.panic => 0

/- ------------------------------------------------------------------ -/
/- Helper lemmas                                                       -/
/- ------------------------------------------------------------------ -/

/-- A `Get` on an open channel whose buffer already holds a request hits
the `default` branch: it returns the content and leaves the state
untouched. -/
lemma Get_pending (s : CacheState) (hopen : s.channelsClosed = false)
    (hp : s.updatePending = true) : Get s = GetResult.ok s.content s := by
  simp [Get, hopen, hp]

/-- A `Get` on an open channel with an empty buffer deposits the
request. -/
lemma Get_notPending (s : CacheState) (hopen : s.channelsClosed = false)
    (hp : s.updatePending = false) :
    Get s = GetResult.ok s.content { s with updatePending := true } := by
  simp [Get, hopen, hp]

/-- While a request is already pending and the channel is open, a burst
of `Get` calls neither changes the state nor deposits any further
request. -/
lemma getBurst_pending (n : Nat) (s : CacheState)
    (hopen : s.channelsClosed = false) (hp : s.updatePending = true) :
    getBurst n s = s ∧ enqueueCount n s = 0 := by
  induction n with
  | zero => simp [getBurst, enqueueCount]
  | succ n ih =>
      refine ⟨?_, ?_⟩
      · simp [getBurst, Get_pending s hopen hp, ih.1]
      · simp [enqueueCount, Get_pending s hopen hp, hp, ih.2]

/- ------------------------------------------------------------------ -/
/- Claims                                                              -/
/- ------------------------------------------------------------------ -/

/-- C1 (code bug, evaluation at the failing input).  The claim says the
fetch helper reports success iff the request completed without a
transport error and the status is exactly 200, everything else being a
fetch failure.  The code diverges: on an error-free response with status
404 and a readable body, `httpGet` returns `(nil, nil)` — a nil body
together with a nil error — so its callers treat the non-200 response as
a successful fetch of nil bytes. -/
theorem httpGet_non200_returns_nil_error :
    httpGet (TransportResult.ok 404 (some [118, 50])) = (none, false) := rfl

/-- C2 (code bug, evaluation at the failing input).  The claim says the
snapshot is never empty after construction succeeds, whatever the remote
later returns.  Trace: construction succeeds with a 200 response whose
body is "v1"; a later refresh iteration receives an error-free HTTP 404
response; because `httpGet` reports no error for it, the loop executes
`c.content = b` with `b = nil`, emptying the snapshot. -/
theorem snapshot_emptied_by_non200_refresh :
    (New "u" "f" (TransportResult.ok 200 (some [118, 49])) none).map
        (fun s =>
          (refreshStep s false (TransportResult.ok 404 none) true false).state.content)
      = some none := rfl

/-- C3 counterexample.  The claim says that when both the remote fetch
and the fallback read fail, construction returns an explicit failure
result instead of crashing.  At the concrete input (transport error,
unreadable fallback file) `load` instead reaches `log.Panicf`: it
panics, and `New` propagates the panic rather than returning. -/
theorem load_panics_when_both_fail_ce :
    load TransportResult.err none = LoadResult.panic ∧
      New "u" "f" TransportResult.err none = none := ⟨rfl, rfl⟩

/-- C3 amended.  Whenever the fetch reports a non-nil error and the
fallback file cannot be read, construction panics via `log.Panicf`
(terminating the process unless recovered); it does not return a failure
value to the caller. -/
theorem bootstrap_total_failure_panics (url filename : String)
    (fetch : TransportResult) (hfail : (httpGet fetch).2 = true) :
    load fetch none = LoadResult.panic ∧ New url filename fetch none = none := by
  rcases hq : httpGet fetch with ⟨b, e⟩
  rw [hq] at hfail
  simp only at hfail
  subst hfail
  have hl : load fetch none = LoadResult.panic := by simp [load, hq]
  exact ⟨hl, by simp [New, hl]⟩

/-- Witness for `bootstrap_total_failure_panics` at a concrete transport
error. -/
theorem bootstrap_total_failure_panics_witness :
    load TransportResult.err none = LoadResult.panic ∧
      New "w" "g" TransportResult.err none = none :=
  bootstrap_total_failure_panics "w" "g" TransportResult.err rfl

/-- C4 counterexample.  The claim says a second shutdown call after the
first has been accepted neither blocks nor fails.  Concrete trace: a
constructed cache runs one iteration with a `Close` sender waiting, so
the goroutine receives it, closes both channels and exits; the second
`Close` then sends on the closed `close` channel, which panics. -/
theorem second_close_panics_ce :
    Close (refreshStep
        { filename := "f", url := "u", content := some [118, 49],
          updatePending := false, channelsClosed := false }
        false TransportResult.err true true).state = CloseResult.panic := rfl

/-- C4 amended.  After the background task has observed a first shutdown
request and exited (closing its channels), any further `Close` call
panics with a send on a closed channel; it does not complete without
error. -/
theorem close_after_shutdown_panics (s : CacheState)
    (h : s.channelsClosed = true) : Close s = CloseResult.panic := by
  simp [Close, h]

/-- Witness for `close_after_shutdown_panics` at a concrete state. -/
theorem close_after_shutdown_panics_witness :
    Close { filename := "f", url := "u", content := none,
            updatePending := false, channelsClosed := true } = CloseResult.panic :=
  close_after_shutdown_panics _ rfl

/-- C5 (code bug, evaluation at the failing input).  The claim says a
refresh iteration whose fetch fails — including a non-success status —
leaves the snapshot unchanged.  At the concrete input the snapshot holds
"v2", the refresh receives an error-free HTTP 500 response, and the loop
overwrites the snapshot with nil because `httpGet` returned a nil
error. -/
theorem refresh_non200_overwrites_snapshot :
    (refreshStep
        { filename := "f", url := "u", content := some [118, 50],
          updatePending := false, channelsClosed := false }
        false (TransportResult.ok 500 (some [120])) true false).state.content
      = none := rfl

/-- C6 (code bug, evaluation at the failing input).  The claim says the
fallback file is read if and only if the bootstrap fetch fails (network
error, non-success status, or timeout), its bytes becoming the initial
snapshot.  At the concrete input the remote answers with an error-free
HTTP 500 while the fallback file is readable; `load` nevertheless treats
the fetch as successful, returns the nil body as the initial snapshot
and never reads the fallback. -/
theorem bootstrap_non200_skips_fallback :
    load (TransportResult.ok 500 (some [1, 2])) (some [108, 111])
      = LoadResult.ok none := rfl

/-- C7 (confirmed).  `Get`'s trigger is the non-blocking
`select { case c.update <- 1: default: }` on a capacity-one channel: a
burst of `n` accessor calls on a live cache deposits at most one refresh
request in total, and if a request is already pending when the burst
starts, the burst deposits none and leaves the channel state
unchanged. -/
theorem get_burst_coalesces (n : Nat) (s : CacheState)
    (hopen : s.channelsClosed = false) :
    enqueueCount n s ≤ 1 ∧
      (s.updatePending = true → getBurst n s = s ∧ enqueueCount n s = 0) := by
  refine ⟨?_, fun hp => getBurst_pending n s hopen hp⟩
  cases n with
  | zero => simp [enqueueCount]
  | succ n =>
      cases hp : s.updatePending with
      | true => simp [(getBurst_pending (Nat.succ n) s hopen hp).2]
      | false =>
          have hget := Get_notPending s hopen hp
          have hrest :=
            (getBurst_pending n { s with updatePending := true } hopen rfl).2
          simp [enqueueCount, hget, hp, hrest]

/-- Witness for `get_burst_coalesces`: 100 rapid accessor calls while a
request is already pending deposit no further request. -/
theorem get_burst_coalesces_witness :
    enqueueCount 100
        { filename := "f", url := "u", content := some [118, 49],
          updatePending := true, channelsClosed := false } ≤ 1 ∧
      ((CacheState.mk "f" "u" (some [118, 49]) true false).updatePending = true →
        getBurst 100
            { filename := "f", url := "u", content := some [118, 49],
              updatePending := true, channelsClosed := false }
          = { filename := "f", url := "u", content := some [118, 49],
              updatePending := true, channelsClosed := false } ∧
        enqueueCount 100
            { filename := "f", url := "u", content := some [118, 49],
              updatePending := true, channelsClosed := false } = 0) :=
  get_burst_coalesces 100
    { filename := "f", url := "u", content := some [118, 49],
      updatePending := true, channelsClosed := false } rfl

/-- C8 (confirmed).  A refresh iteration whose fetch succeeds (HTTP 200,
body read without error) replaces the snapshot with the fetched bytes
and writes those same bytes to the fallback path; the outcome of the
disk write changes nothing but the logged failure — the state (hence the
snapshot) is identical whether the write succeeds or fails — and the
loop exits only when shutdown was requested. -/
theorem refresh_success_updates_and_persists (s : CacheState) (wake : Bool)
    (body : List Nat) (dOk closeReq : Bool) :
    (refreshStep s wake (TransportResult.ok 200 (some body)) dOk closeReq).state.content
        = some body ∧
      (refreshStep s wake (TransportResult.ok 200 (some body)) dOk closeReq).fileWrite
        = some (some body) ∧
      (refreshStep s wake (TransportResult.ok 200 (some body)) true closeReq).state
        = (refreshStep s wake (TransportResult.ok 200 (some body)) false closeReq).state ∧
      (refreshStep s wake (TransportResult.ok 200 (some body)) dOk closeReq).exited
        = closeReq := by
  cases wake <;> cases closeReq <;> simp [refreshStep, httpGet]

/-- C10 (confirmed).  Once an iteration observes the shutdown request,
the goroutine closes both channels and exits; every subsequent accessor
call panics — the `select` in `Get` finds the send on the closed
`update` channel ready and the send proceeds by panicking — rather than
silently returning the last snapshot. -/
theorem get_after_shutdown_panics (s : CacheState) (wake : Bool)
    (fetch : TransportResult) (dOk : Bool) :
    (refreshStep s wake fetch dOk true).state.channelsClosed = true ∧
      (refreshStep s wake fetch dOk true).exited = true ∧
      Get (refreshStep s wake fetch dOk true).state = GetResult.panic :=
  ⟨rfl, rfl, rfl⟩

end Sextant
